import Mathlib

/-!
Verification of the MariOS kernel boot sequence (src/kernel/src/main.rs)
against its specification.

The kernel's `main.rs` is embedded shallowly:
  - pure helper functions (`check_framebuffer_size`, `get_first_ata_drive`,
    `get_user_partition`) become Lean functions over the same data;
  - external collaborators (the ATA driver, the MBR parsing crate, the
    logger, the filesystem/program loader modules that live outside the
    provided source) become explicit parameters collected in `KernelEnv`,
    or are modelled from the specification where so noted;
  - `kernel_main`, which returns `!` in Rust, becomes a function producing
    the trace of boot events it performed together with its final outcome
    (entering userspace at some address, or panicking with a cause);
  - `Result::unwrap()` on an `Err` is a Rust panic; panics are a distinct
    outcome (`panicked`), not an `Err` return;
  - the divergent fatal path (`panic` handler, `alloc_error_handler`,
    `hlt_loop`) is a fuel-indexed transition system emitting events.
-/

namespace MariOS

/-- Device-level error of the block-storage (ATA) driver.  The driver crate
is an external collaborator; the spec only requires `read` to return
`Result<(), DeviceError>`, so the error is carried opaquely as a code. -/
inductive AtaError where
  | device (code : Nat)
deriving DecidableEq

/-- Kernel initialization errors, from `enum KernelInitError` in main.rs. -/
inductive KernelInitError where
  | framebufferWrongSize
  | physicalMemoryNotMapped
  | ataError (e : AtaError)
  | ataNoDrive
  | invalidDiskMbr
deriving DecidableEq

/-- The `From<AtaError> for KernelInitError` conversion in main.rs. -/
def KernelInitError.fromAta (e : AtaError) : KernelInitError :=
  KernelInitError.ataError e

/-- Cause of a Rust panic during boot: each `.unwrap()` in main.rs that can
fail, identified by what was unwrapped. -/
inductive PanicCause where
  | unwrapErr (e : KernelInitError)
  | unwrapAta (e : AtaError)
  | unwrapLogger
  | unwrapLoad
deriving DecidableEq

/-- Result of a fallible kernel computation that may also panic: `ok` and
`err` are the two sides of Rust's `Result`, `panicked` is a panic raised
inside the computation (e.g. by an internal `.unwrap()`). -/
inductive KResult (α : Type) where
  | ok (a : α)
  | err (e : KernelInitError)
  | panicked (c : PanicCause)
deriving DecidableEq

/-- Pixel format of the framebuffer, from `bootloader_api`. -/
inductive PixelFormat where
  | rgb
  | bgr
  | u8
  | unknown (redPos greenPos bluePos : Nat)
deriving DecidableEq

/-- Framebuffer descriptor, from `bootloader_api::info::FrameBufferInfo`. -/
structure FrameBufferInfo where
  byte_len : Nat
  width : Nat
  height : Nat
  pixel_format : PixelFormat
  bytes_per_pixel : Nat
  stride : Nat
deriving DecidableEq

/-- Usability tag of a boot-reported memory region. -/
inductive MemoryRegionKind where
  | usable
  | bootloader
  | unknownBios (code : Nat)
deriving DecidableEq

/-- One region of the boot-reported physical memory map.  The Rust field
`end` is a Lean keyword and is rendered `end_`. -/
structure MemoryRegion where
  start : Nat
  end_ : Nat
  kind : MemoryRegionKind
deriving DecidableEq

/-- The boot information handed to `kernel_main` by the bootloader: the
fields of `bootloader_api::BootInfo` that main.rs reads. -/
structure BootInfo where
  api_version : Nat × Nat × Nat
  memory_regions : List MemoryRegion
  framebuffer : Option FrameBufferInfo
  physical_memory_offset : Option Nat

/-- A drive handle: its sector-addressed read operation
`read(buffer, start_sector, sector_count)`, modelled as returning the bytes
placed into the buffer (or the device error). -/
structure Drive where
  read : Nat → Nat → Except AtaError (List Nat)

/-- Drive description returned by `ata::list()`: the fields main.rs uses. -/
structure DriveInfo where
  model : String
  size_in_kib : Nat
  drive : Drive

/-- MBR partition type: main.rs only distinguishes `Unused` from the rest,
so every used type is carried as its type code. -/
inductive PartitionType where
  | unused
  | used (code : Nat)
deriving DecidableEq

/-- One partition entry of the boot record, from the `mbr` crate: the
fields main.rs reads. -/
structure PartitionEntry where
  bootable : Bool
  partition_type : PartitionType
  logical_block_address : Nat
  sector_count : Nat
deriving DecidableEq

/-- A parsed master boot record: four partition entries. -/
structure MasterBootRecord where
  entries : Fin 4 → PartitionEntry

/-- A disk partition, from `ata::Partition`: a drive plus a start sector
and a sector count. -/
structure Partition where
  drive : Drive
  start_sector : Nat
  sector_count : Nat

/-- `ata::Partition::new(drive, start_sector, sector_count)`. -/
def Partition.new (drive : Drive) (start_sector sector_count : Nat) :
    Partition :=
  { drive := drive, start_sector := start_sector,
    sector_count := sector_count }

/-- The external collaborators `kernel_main` calls, as explicit inputs:
logger initialization, the ATA driver entry points, the MBR parsing crate,
and `program::load_program` (name to entry-point address, `none` meaning
the lookup or the ELF load failed). -/
structure KernelEnv where
  loggerInitOk : Bool
  ataInit : Except AtaError Unit
  ataList : Except AtaError (List DriveInfo)
  mbrParse : List Nat → Except Unit MasterBootRecord
  loadProgram : String → Option Nat

/-- `check_framebuffer_size` (main.rs lines 103-112): accept exactly a
640 by 480 framebuffer with 4 bytes per pixel. -/
def check_framebuffer_size (fb_info : FrameBufferInfo) :
    Except KernelInitError Unit :=
  if fb_info.width = 640 ∧ fb_info.height = 480 ∧
      fb_info.bytes_per_pixel = 4 then
    Except.ok ()
  else
    Except.error KernelInitError.framebufferWrongSize

/-- `get_first_ata_drive` (main.rs lines 114-120): initialize the driver,
list drives, take the first or fail with `AtaNoDrive`; driver errors are
converted by the `From<AtaError>` impl and propagated with `?`. -/
def get_first_ata_drive (env : KernelEnv) :
    Except KernelInitError DriveInfo :=
  match env.ataInit with
  | Except.error e => Except.error (KernelInitError.fromAta e)
  | Except.ok () =>
    match env.ataList with
    | Except.error e => Except.error (KernelInitError.fromAta e)
    | Except.ok drives =>
      match drives with
      | [] => Except.error KernelInitError.ataNoDrive
      | d :: _ => Except.ok d

/-- `get_user_partition` (main.rs lines 122-140): read sector 0 of the
drive (note: the read's `Result` is `.unwrap()`ed, so a device error
panics rather than returning `Err`), parse it as an MBR (a parse failure
becomes `InvalidDiskMbr`), reject records whose entry 0 or entry 1 is
unused or whose entry 0 is not bootable at sector 0, and otherwise build
the user partition from entry 1 verbatim. -/
def get_user_partition (parse : List Nat → Except Unit MasterBootRecord)
    (drive : Drive) : KResult Partition :=
  match drive.read 0 1 with
  | Except.error e => KResult.panicked (PanicCause.unwrapAta e)
  | Except.ok mbr_bytes =>
    match parse mbr_bytes with
    | Except.error _ => KResult.err KernelInitError.invalidDiskMbr
    | Except.ok mbr =>
      if (mbr.entries 0).partition_type = PartitionType.unused ∨
          (mbr.entries 1).partition_type = PartitionType.unused then
        KResult.err KernelInitError.invalidDiskMbr
      else if ¬ (mbr.entries 0).bootable ∨
          (mbr.entries 0).logical_block_address ≠ 0 then
        KResult.err KernelInitError.invalidDiskMbr
      else
        KResult.ok (Partition.new drive
          (mbr.entries 1).logical_block_address
          (mbr.entries 1).sector_count)

/-- Observable boot events, one per side-effecting step of `kernel_main`
(log lines are recorded without their text; the program name requested
from the filesystem is recorded, since the spec fixes it). -/
inductive BootEvent where
  | setGlobalFramebuffer
  | loggerInit
  | logInfo
  | logDebug
  | checkFramebuffer
  | initGdt
  | initIdt
  | initFrameAllocator
  | initVirtualMemoryManager
  | initHeap
  | initInterrupts
  | initAta
  | readBootRecord
  | initFs
  | loadProgram (name : String)
  | enterUserspace
deriving DecidableEq

/-- Final outcome of `kernel_main`: it never returns, so it either enters
userspace at some entry address or panics. -/
inductive BootOutcome where
  | userspace (entry : Nat)
  | panicked (c : PanicCause)
deriving DecidableEq

/-- What a run of `kernel_main` produced: its event trace, its outcome and
the final state of the process-wide framebuffer slot. -/
structure BootResult where
  trace : List BootEvent
  outcome : BootOutcome
  global_framebuffer : Option FrameBufferInfo

/-- Modelled from the spec: the body of `memory::init_memory` is not among
the provided sources; per the spec's ordering guarantee it initializes the
physical frame allocator, then the virtual memory manager, then the heap,
in that order. -/
def init_memory_events : List BootEvent :=
  [BootEvent.initFrameAllocator, BootEvent.initVirtualMemoryManager,
   BootEvent.initHeap]

/-- Continuation of `kernel_main` from main.rs line 75 on (after the
framebuffer check), shared by the with- and without-framebuffer paths;
`gfb` is the process-wide framebuffer slot, `t` the trace so far. -/
def kernel_main_after_fb (env : KernelEnv) (bi : BootInfo)
    (gfb : Option FrameBufferInfo) (t : List BootEvent) : BootResult :=
  -- lines 75-79: physical_memory_offset.into_option().ok_or(..).unwrap()
  match bi.physical_memory_offset with
  | none =>
    { trace := t,
      outcome := BootOutcome.panicked
        (PanicCause.unwrapErr KernelInitError.physicalMemoryNotMapped),
      global_framebuffer := gfb }
  | some _phys_offset =>
    -- lines 80-83: load GDT, then IDT
    let t := t ++ [BootEvent.logInfo, BootEvent.initGdt,
      BootEvent.logInfo, BootEvent.initIdt]
    -- lines 84-85: memory::init_memory(phys_offset, memory_regions)
    let t := t ++ [BootEvent.logInfo] ++ init_memory_events
    -- lines 86-87: enable interrupts
    let t := t ++ [BootEvent.logInfo, BootEvent.initInterrupts]
    -- lines 89-90: get_first_ata_drive().unwrap()
    let t := t ++ [BootEvent.logInfo, BootEvent.initAta]
    match get_first_ata_drive env with
    | Except.error e =>
      { trace := t, outcome := BootOutcome.panicked (PanicCause.unwrapErr e),
        global_framebuffer := gfb }
    | Except.ok drive_info =>
      -- lines 91-95: log::debug! of the drive
      let t := t ++ [BootEvent.logDebug]
      -- line 96: get_user_partition(drive_info.drive).unwrap()
      let t := t ++ [BootEvent.readBootRecord]
      match get_user_partition env.mbrParse drive_info.drive with
      | KResult.panicked c =>
        { trace := t, outcome := BootOutcome.panicked c,
          global_framebuffer := gfb }
      | KResult.err e =>
        { trace := t,
          outcome := BootOutcome.panicked (PanicCause.unwrapErr e),
          global_framebuffer := gfb }
      | KResult.ok _user_partition =>
        -- lines 97-98: log::debug! of the partition; filesystem::init_fs
        let t := t ++ [BootEvent.logDebug, BootEvent.initFs]
        -- line 99: program::load_program("raytrace.elf").unwrap()
        -- (modelled from the spec: load_program resolves exactly the
        -- given name over the user partition's filesystem and treats
        -- its bytes as the ELF image, yielding the entry point)
        let t := t ++ [BootEvent.loadProgram "raytrace.elf"]
        match env.loadProgram "raytrace.elf" with
        | none =>
          { trace := t,
            outcome := BootOutcome.panicked PanicCause.unwrapLoad,
            global_framebuffer := gfb }
        | some entry =>
          -- line 100: userspace::enter_userspace(entry_point)
          { trace := t ++ [BootEvent.enterUserspace],
            outcome := BootOutcome.userspace entry,
            global_framebuffer := gfb }

/-- `kernel_main` (main.rs lines 50-101).  The process-wide framebuffer
slot (`graphics` module, modelled from the spec: installed at most once
near the start of boot, initially unset) is threaded explicitly; every
fallible call mirrors the source's `.unwrap()` by panicking. -/
def kernel_main (env : KernelEnv) (bi : BootInfo) : BootResult :=
  -- lines 51-53: install the global framebuffer if the bootloader gave one
  let gfb : Option FrameBufferInfo := bi.framebuffer
  let t0 : List BootEvent :=
    match bi.framebuffer with
    | some _ => [BootEvent.setGlobalFramebuffer]
    | none => []
  -- line 55: logger::init().unwrap()
  let t1 := t0 ++ [BootEvent.loggerInit]
  if ¬ env.loggerInitOk then
    { trace := t1, outcome := BootOutcome.panicked PanicCause.unwrapLogger,
      global_framebuffer := gfb }
  else
    -- lines 56-63: three log::info! lines (name, version, bootloader)
    let t2 := t1 ++ [BootEvent.logInfo, BootEvent.logInfo, BootEvent.logInfo]
    -- lines 64-73: if the global framebuffer is set, log its shape and
    -- check_framebuffer_size(fb_info).unwrap()
    match gfb with
    | some fb_info =>
      let t3 := t2 ++ [BootEvent.logInfo, BootEvent.checkFramebuffer]
      match check_framebuffer_size fb_info with
      | Except.error e =>
        { trace := t3, outcome := BootOutcome.panicked (PanicCause.unwrapErr e),
          global_framebuffer := gfb }
      | Except.ok () => kernel_main_after_fb env bi gfb t3
    | none => kernel_main_after_fb env bi gfb t2

/-- Events of the fatal (diverging) path: the diagnostic emitted by the
panic handler, the diagnostic emitted by the allocation-error handler,
and one execution of the `hlt` instruction. -/
inductive FatalEvent where
  | logErrorPanic (msg : String)
  | logErrorAlloc (layoutSize layoutAlign : Nat)
  | hlt
deriving DecidableEq

/-- Control state of the fatal path: about to run the panic handler
(main.rs lines 148-152) with the panic message, about to run the
allocation-error handler (lines 154-158) with the failed layout, inside
`hlt_loop` (lines 142-146), or returned to the caller - a state no
transition ever produces, present so that "never returns" is statable. -/
inductive FatalState where
  | panicEntry (msg : String)
  | allocEntry (layoutSize layoutAlign : Nat)
  | hltLoop
  | returned
deriving DecidableEq

/-- One step of the fatal path: each handler logs its diagnostic and
enters `hlt_loop`; `hlt_loop` executes `hlt` and loops. -/
def fatalStep : FatalState → FatalState × List FatalEvent
  | FatalState.panicEntry msg =>
    (FatalState.hltLoop, [FatalEvent.logErrorPanic msg])
  | FatalState.allocEntry sz al =>
    (FatalState.hltLoop, [FatalEvent.logErrorAlloc sz al])
  | FatalState.hltLoop => (FatalState.hltLoop, [FatalEvent.hlt])
  | FatalState.returned => (FatalState.returned, [])

/-- Run the fatal path for `fuel` steps, accumulating emitted events. -/
def fatalRun (s : FatalState) : Nat → FatalState × List FatalEvent
  | 0 => (s, [])
  | n + 1 =>
    let (s1, evs) := fatalStep s
    let (s2, evs2) := fatalRun s1 n
    (s2, evs ++ evs2)

/-- Index of the first occurrence of event `e` in trace `t`. -/
def evIdx (t : List BootEvent) (e : BootEvent) : Nat :=
  t.findIdx (fun x => decide (x = e))

/-- The initialization-step events of the boot sequence (excluding log
lines, the framebuffer install/check and the final transition). -/
def initStepEvents : List BootEvent :=
  [BootEvent.initGdt, BootEvent.initIdt, BootEvent.initFrameAllocator,
   BootEvent.initVirtualMemoryManager, BootEvent.initHeap,
   BootEvent.initInterrupts, BootEvent.initAta, BootEvent.readBootRecord,
   BootEvent.initFs]

/-- Is this event one of the core initialization/transition steps (as
opposed to a log line or the framebuffer install/check)? -/
def isInitStep : BootEvent → Bool
  | BootEvent.setGlobalFramebuffer => false
  | BootEvent.loggerInit => false
  | BootEvent.logInfo => false
  | BootEvent.logDebug => false
  | BootEvent.checkFramebuffer => false
  | _ => true

/-- Is this event a program-load (file request) event? -/
def isLoadEvent : BootEvent → Bool
  | BootEvent.loadProgram _ => true
  | _ => false

/- Concrete fixtures used by witnesses and counterexamples. -/

/-- A 640 by 480 framebuffer with 4 bytes per pixel. -/
def fb640 : FrameBufferInfo :=
  { byte_len := 640 * 480 * 4, width := 640, height := 480,
    pixel_format := PixelFormat.bgr, bytes_per_pixel := 4, stride := 640 }

/-- An 800 by 600 framebuffer with 4 bytes per pixel. -/
def fb800 : FrameBufferInfo :=
  { byte_len := 800 * 600 * 4, width := 800, height := 600,
    pixel_format := PixelFormat.bgr, bytes_per_pixel := 4, stride := 800 }

/-- A bootable kernel partition entry starting at sector 0. -/
def goodEntry0 : PartitionEntry :=
  { bootable := true, partition_type := PartitionType.used 131,
    logical_block_address := 0, sector_count := 2048 }

/-- A non-empty user partition entry: start sector 2048, count 4096. -/
def goodEntry1 : PartitionEntry :=
  { bootable := false, partition_type := PartitionType.used 131,
    logical_block_address := 2048, sector_count := 4096 }

/-- An unused partition entry. -/
def emptyEntry : PartitionEntry :=
  { bootable := false, partition_type := PartitionType.unused,
    logical_block_address := 0, sector_count := 0 }

/-- A well-formed boot record: entry 0 bootable at sector 0, entry 1 the
user partition, entries 2 and 3 unused. -/
def goodMbr : MasterBootRecord :=
  { entries := fun i =>
      match i with
      | ⟨0, _⟩ => goodEntry0
      | ⟨1, _⟩ => goodEntry1
      | _ => emptyEntry }

/-- A boot record whose every entry is unused. -/
def badMbr0 : MasterBootRecord :=
  { entries := fun _ => emptyEntry }

/-- A 512-byte all-zero sector. -/
def zeroBytes : List Nat := List.replicate 512 0

/-- A drive whose reads always succeed with an all-zero sector. -/
def goodDrive : Drive := { read := fun _ _ => Except.ok zeroBytes }

/-- A drive whose reads always fail with a device error. -/
def badDrive : Drive := { read := fun _ _ => Except.error (AtaError.device 1) }

/-- An MBR parser that always yields the well-formed boot record. -/
def goodParse : List Nat → Except Unit MasterBootRecord :=
  fun _ => Except.ok goodMbr

/-- An MBR parser that always yields the all-unused boot record. -/
def unusedParse : List Nat → Except Unit MasterBootRecord :=
  fun _ => Except.ok badMbr0

/-- Description of the fixture drive, as `ata::list()` would report it. -/
def goodDriveInfo : DriveInfo :=
  { model := "QEMU HARDDISK", size_in_kib := 65536, drive := goodDrive }

/-- An environment in which every external call succeeds; the loaded
program's entry point is address 77. -/
def goodEnv : KernelEnv :=
  { loggerInitOk := true, ataInit := Except.ok (),
    ataList := Except.ok [goodDriveInfo], mbrParse := goodParse,
    loadProgram := fun _ => some 77 }

/-- Like `goodEnv`, but the program load fails. -/
def loadFailEnv : KernelEnv :=
  { goodEnv with loadProgram := fun _ => none }

/-- Boot information with a valid framebuffer and a mapped physical
memory offset. -/
def goodBI : BootInfo :=
  { api_version := (0, 11, 0), memory_regions := [],
    framebuffer := some fb640,
    physical_memory_offset := some 263882790666240 }

/-- Boot information with no framebuffer at all. -/
def noFbBI : BootInfo :=
  { goodBI with framebuffer := none }

/-- Boot information whose physical-memory-offset mapping is absent. -/
def noPhysBI : BootInfo :=
  { goodBI with physical_memory_offset := none }

/-- The events `kernel_main_after_fb` emits on a fully successful run, in
order (main.rs lines 80-100). -/
def restTrace : List BootEvent :=
  [BootEvent.logInfo, BootEvent.initGdt, BootEvent.logInfo, BootEvent.initIdt,
   BootEvent.logInfo] ++ init_memory_events ++
  [BootEvent.logInfo, BootEvent.initInterrupts,
   BootEvent.logInfo, BootEvent.initAta,
   BootEvent.logDebug, BootEvent.readBootRecord,
   BootEvent.logDebug, BootEvent.initFs,
   BootEvent.loadProgram "raytrace.elf", BootEvent.enterUserspace]

/-- The events `kernel_main` emits up to the framebuffer check when a
framebuffer is present (main.rs lines 51-73). -/
def fbHeadTrace : List BootEvent :=
  [BootEvent.setGlobalFramebuffer, BootEvent.loggerInit, BootEvent.logInfo,
   BootEvent.logInfo, BootEvent.logInfo, BootEvent.logInfo,
   BootEvent.checkFramebuffer]

/-- The events `kernel_main` emits up to the (skipped) framebuffer check
when no framebuffer is present. -/
def noFbHeadTrace : List BootEvent :=
  [BootEvent.loggerInit, BootEvent.logInfo, BootEvent.logInfo,
   BootEvent.logInfo]

/-- The full successful-boot trace, depending on whether a framebuffer
descriptor is present. -/
def fullTrace : Option FrameBufferInfo → List BootEvent
  | some _ => fbHeadTrace ++ restTrace
  | none => noFbHeadTrace ++ restTrace

/-! Helper lemmas shared by several claims. -/

/-- Taking a prefix longer than a whole first part splits around it. -/
theorem take_append_left {α : Type} (l1 l2 : List α) (n : Nat) :
    (l1 ++ l2).take (l1.length + n) = l1 ++ l2.take n := by
  induction l1 with
  | nil => simp
  | cons a as ih => simp [List.length_cons, Nat.succ_add, ih]

/-- A property of every prefix of a list follows from the property at the
bounded prefixes. -/
theorem take_prop_of_bounded {α : Type} (L : List α) (P : List α → Prop)
    (h : ∀ k, k ≤ L.length → P (L.take k)) : ∀ k, P (L.take k) := by
  intro k
  rcases le_or_lt k L.length with hk | hk
  · exact h k hk
  · rw [List.take_of_length_le (Nat.le_of_lt hk)]
    have h2 := h L.length (Nat.le_refl _)
    rwa [List.take_length] at h2

/-- The only error `check_framebuffer_size` produces is
`FramebufferWrongSize`. -/
theorem check_framebuffer_size_error_shape (fb : FrameBufferInfo)
    (e : KernelInitError) (h : check_framebuffer_size fb = Except.error e) :
    e = KernelInitError.framebufferWrongSize := by
  unfold check_framebuffer_size at h
  split at h
  · cases h
  · cases h
    rfl

/-- `get_first_ata_drive` never fails with the framebuffer error. -/
theorem get_first_ata_drive_error_shape (env : KernelEnv)
    (e : KernelInitError) (h : get_first_ata_drive env = Except.error e) :
    e ≠ KernelInitError.framebufferWrongSize := by
  unfold get_first_ata_drive KernelInitError.fromAta at h
  repeat' split at h
  all_goals cases h
  all_goals simp

/-- The only `Err` `get_user_partition` produces is `InvalidDiskMbr`. -/
theorem get_user_partition_err_shape
    (parse : List Nat → Except Unit MasterBootRecord) (drive : Drive)
    (e : KernelInitError)
    (h : get_user_partition parse drive = KResult.err e) :
    e = KernelInitError.invalidDiskMbr := by
  unfold get_user_partition at h
  repeat' split at h
  all_goals cases h
  all_goals rfl

/-- The only panic `get_user_partition` raises is the unwrap of a failed
device read. -/
theorem get_user_partition_panic_shape
    (parse : List Nat → Except Unit MasterBootRecord) (drive : Drive)
    (c : PanicCause)
    (h : get_user_partition parse drive = KResult.panicked c) :
    ∃ a, c = PanicCause.unwrapAta a := by
  unfold get_user_partition at h
  repeat' split at h
  all_goals cases h
  exact ⟨_, rfl⟩

/-! The claims. -/

/-- C1: for every boot record obtained by a successful read and parse, if
entry 0 or entry 1 is marked unused, or entry 0 is not bootable, or entry
0's start is not sector 0, then `get_user_partition` returns the
`InvalidDiskMbr` error. -/
theorem C1_invalid_mbr_rejected
    (parse : List Nat → Except Unit MasterBootRecord) (drive : Drive)
    (bytes : List Nat) (mbr : MasterBootRecord)
    (hread : drive.read 0 1 = Except.ok bytes)
    (hparse : parse bytes = Except.ok mbr)
    (hbad : (mbr.entries 0).partition_type = PartitionType.unused ∨
      (mbr.entries 1).partition_type = PartitionType.unused ∨
      (mbr.entries 0).bootable = false ∨
      (mbr.entries 0).logical_block_address ≠ 0) :
    get_user_partition parse drive = KResult.err
      KernelInitError.invalidDiskMbr := by
  unfold get_user_partition
  simp only [hread, hparse]
  by_cases h1 : (mbr.entries 0).partition_type = PartitionType.unused ∨
      (mbr.entries 1).partition_type = PartitionType.unused
  · simp [h1]
  · have h2 : ¬ (mbr.entries 0).bootable ∨
        (mbr.entries 0).logical_block_address ≠ 0 := by
      rcases hbad with h | h | h | h
      · exact absurd (Or.inl h) h1
      · exact absurd (Or.inr h) h1
      · exact Or.inl (by simp [h])
      · exact Or.inr h
    rw [if_neg h1, if_pos h2]

/-- Witness for C1: a boot record whose entry 0 is unused is rejected. -/
theorem C1_invalid_mbr_rejected_witness :
    get_user_partition unusedParse goodDrive = KResult.err
      KernelInitError.invalidDiskMbr :=
  C1_invalid_mbr_rejected unusedParse goodDrive zeroBytes badMbr0 rfl rfl
    (Or.inl rfl)

/-- C2: for every boot record obtained by a successful read and parse
whose entry 0 is bootable with start sector 0 and whose entries 0 and 1
are both non-unused, `get_user_partition` succeeds with a partition whose
start sector and sector count are entry 1's, verbatim. -/
theorem C2_user_partition_from_entry1
    (parse : List Nat → Except Unit MasterBootRecord) (drive : Drive)
    (bytes : List Nat) (mbr : MasterBootRecord)
    (hread : drive.read 0 1 = Except.ok bytes)
    (hparse : parse bytes = Except.ok mbr)
    (h0 : (mbr.entries 0).partition_type ≠ PartitionType.unused)
    (h1 : (mbr.entries 1).partition_type ≠ PartitionType.unused)
    (hboot : (mbr.entries 0).bootable = true)
    (hlba : (mbr.entries 0).logical_block_address = 0) :
    get_user_partition parse drive = KResult.ok
      (Partition.new drive (mbr.entries 1).logical_block_address
        (mbr.entries 1).sector_count) := by
  unfold get_user_partition
  simp only [hread, hparse]
  simp [h0, h1, hboot, hlba]

/-- Witness for C2: entry 1 with start sector 2048 and count 4096 yields a
partition reporting start sector 2048 and sector count 4096. -/
theorem C2_user_partition_from_entry1_witness :
    get_user_partition goodParse goodDrive = KResult.ok
      (Partition.new goodDrive 2048 4096) := by
  have h := C2_user_partition_from_entry1 goodParse goodDrive zeroBytes
    goodMbr rfl rfl (by decide) (by decide) (by decide) (by decide)
  simpa [goodMbr, goodEntry1] using h

/-- C3: `check_framebuffer_size` returns `Ok` exactly when the descriptor
is 640 by 480 with 4 bytes per pixel, and the `FramebufferWrongSize`
error otherwise. -/
theorem C3_framebuffer_shape_check (fb : FrameBufferInfo) :
    (check_framebuffer_size fb = Except.ok () ↔
      fb.width = 640 ∧ fb.height = 480 ∧ fb.bytes_per_pixel = 4) ∧
    (¬ (fb.width = 640 ∧ fb.height = 480 ∧ fb.bytes_per_pixel = 4) →
      check_framebuffer_size fb = Except.error
        KernelInitError.framebufferWrongSize) := by
  unfold check_framebuffer_size
  by_cases h : fb.width = 640 ∧ fb.height = 480 ∧ fb.bytes_per_pixel = 4 <;>
    simp [h]

/-- Witness for C3: 800 by 600 by 4 is rejected with
`FramebufferWrongSize`; 640 by 480 by 4 passes. -/
theorem C3_framebuffer_shape_check_witness :
    check_framebuffer_size fb800 = Except.error
      KernelInitError.framebufferWrongSize ∧
    check_framebuffer_size fb640 = Except.ok () :=
  ⟨(C3_framebuffer_shape_check fb800).2 (by decide),
   (C3_framebuffer_shape_check fb640).1.mpr (by decide)⟩

/-- Running the fatal path from inside `hlt_loop` stays in `hlt_loop` and
emits only `hlt` events. -/
theorem fatalRun_hltLoop (n : Nat) :
    fatalRun FatalState.hltLoop n =
      (FatalState.hltLoop, List.replicate n FatalEvent.hlt) := by
  induction n with
  | zero => rfl
  | succ k ih => simp [fatalRun, fatalStep, ih, List.replicate_succ]

/-- C7: on any fatal condition the kernel first emits a diagnostic through
the logging facility (the panic handler logs the panic info, the
allocation-error handler logs the failed layout) and then enters
`hlt_loop`; for any number of further steps it stays in `hlt_loop`
emitting only `hlt` events and never reaches the `returned` state, and
the halted state is absorbing. -/
theorem C7_fatal_path_logs_then_halts (msg : String) (sz al n : Nat) :
    fatalRun (FatalState.panicEntry msg) (n + 1) =
      (FatalState.hltLoop,
        FatalEvent.logErrorPanic msg :: List.replicate n FatalEvent.hlt) ∧
    fatalRun (FatalState.allocEntry sz al) (n + 1) =
      (FatalState.hltLoop,
        FatalEvent.logErrorAlloc sz al :: List.replicate n FatalEvent.hlt) ∧
    fatalRun FatalState.hltLoop n =
      (FatalState.hltLoop, List.replicate n FatalEvent.hlt) ∧
    (fatalRun (FatalState.panicEntry msg) n).1 ≠ FatalState.returned ∧
    (fatalRun (FatalState.allocEntry sz al) n).1 ≠ FatalState.returned := by
  refine ⟨?_, ?_, fatalRun_hltLoop n, ?_, ?_⟩
  · simp [fatalRun, fatalStep, fatalRun_hltLoop]
  · simp [fatalRun, fatalStep, fatalRun_hltLoop]
  · cases n with
    | zero => simp [fatalRun]
    | succ k => simp [fatalRun, fatalStep, fatalRun_hltLoop]
  · cases n with
    | zero => simp [fatalRun]
    | succ k => simp [fatalRun, fatalStep, fatalRun_hltLoop]

/-- Counterexample to C8 as stated: on a drive whose sector read fails,
`get_user_partition` does not return the `AtaError` variant of
`KernelInitError` to its caller; it panics (the read's `Result` is
`.unwrap()`ed at main.rs line 124). -/
theorem C8_counterexample :
    get_user_partition goodParse badDrive ≠
      KResult.err (KernelInitError.ataError (AtaError.device 1)) ∧
    get_user_partition goodParse badDrive =
      KResult.panicked (PanicCause.unwrapAta (AtaError.device 1)) := by
  constructor
  · intro h
    exact KResult.noConfusion h
  · rfl

/-- C8 (amended): for every drive whose sector read fails while reading
the boot record, `get_user_partition` panics with the unwrap of that
device error (the panic handler then logs the named condition and halts);
the error is not returned as a typed `KernelInitError`. -/
theorem C8_read_failure_panics
    (parse : List Nat → Except Unit MasterBootRecord) (drive : Drive)
    (e : AtaError) (h : drive.read 0 1 = Except.error e) :
    get_user_partition parse drive =
      KResult.panicked (PanicCause.unwrapAta e) ∧
    ∀ e2 : KernelInitError,
      get_user_partition parse drive ≠ KResult.err e2 := by
  unfold get_user_partition
  rw [h]
  exact ⟨rfl, fun e2 h2 => KResult.noConfusion h2⟩

/-- Witness for C8 (amended): the failing fixture drive makes
`get_user_partition` panic with the device error. -/
theorem C8_read_failure_panics_witness :
    get_user_partition unusedParse badDrive =
      KResult.panicked (PanicCause.unwrapAta (AtaError.device 1)) :=
  (C8_read_failure_panics unusedParse badDrive (AtaError.device 1) rfl).1

/-! Characterization of every `kernel_main` run, shared by the
temporal and boot-sequence claims. -/

theorem kernel_main_after_fb_spec (env : KernelEnv) (bi : BootInfo)
    (gfb : Option FrameBufferInfo) (t : List BootEvent) :
    (kernel_main_after_fb env bi gfb t).global_framebuffer = gfb ∧
    (∃ k, (kernel_main_after_fb env bi gfb t).trace = t ++ restTrace.take k) ∧
    (∀ e, (kernel_main_after_fb env bi gfb t).outcome = BootOutcome.userspace e →
      (kernel_main_after_fb env bi gfb t).trace = t ++ restTrace ∧
      env.loadProgram "raytrace.elf" = some e) ∧
    (BootEvent.loadProgram "raytrace.elf" ∉ t →
      BootEvent.loadProgram "raytrace.elf" ∈
        (kernel_main_after_fb env bi gfb t).trace →
      env.loadProgram "raytrace.elf" = none →
      (kernel_main_after_fb env bi gfb t).outcome =
        BootOutcome.panicked PanicCause.unwrapLoad) ∧
    (kernel_main_after_fb env bi gfb t).outcome ≠
      BootOutcome.panicked
        (PanicCause.unwrapErr KernelInitError.framebufferWrongSize) := by
  cases hpo : bi.physical_memory_offset with
  | none =>
    have hres : kernel_main_after_fb env bi gfb t =
        { trace := t,
          outcome := BootOutcome.panicked
            (PanicCause.unwrapErr KernelInitError.physicalMemoryNotMapped),
          global_framebuffer := gfb } := by
      unfold kernel_main_after_fb
      rw [hpo]
    rw [hres]
    dsimp only
    refine ⟨rfl, ⟨0, by simp⟩, ?_, ?_, ?_⟩
    · intro e he
      exact BootOutcome.noConfusion he
    · intro hnot hmem _
      exact absurd hmem hnot
    · intro hcon
      injection hcon with h1
      injection h1 with h2
      exact KernelInitError.noConfusion h2
  | some p =>
    cases hada : get_first_ata_drive env with
    | error e =>
      have hne := get_first_ata_drive_error_shape env e hada
      have hres : kernel_main_after_fb env bi gfb t =
          { trace := t ++ [BootEvent.logInfo, BootEvent.initGdt,
              BootEvent.logInfo, BootEvent.initIdt, BootEvent.logInfo,
              BootEvent.initFrameAllocator,
              BootEvent.initVirtualMemoryManager, BootEvent.initHeap,
              BootEvent.logInfo, BootEvent.initInterrupts,
              BootEvent.logInfo, BootEvent.initAta],
            outcome := BootOutcome.panicked (PanicCause.unwrapErr e),
            global_framebuffer := gfb } := by
        unfold kernel_main_after_fb
        rw [hpo, hada]
        simp [init_memory_events, List.append_assoc]
      rw [hres]
      dsimp only
      refine ⟨rfl, ⟨12, by congr 1⟩, ?_, ?_, ?_⟩
      · intro e2 he
        exact BootOutcome.noConfusion he
      · intro hnot hmem _
        rcases List.mem_append.mp hmem with h | h
        · exact absurd h hnot
        · exact absurd h (by decide)
      · intro hcon
        injection hcon with h1
        injection h1 with h2
        exact hne h2
    | ok di =>
      cases hup : get_user_partition env.mbrParse di.drive with
      | panicked c =>
        obtain ⟨a, rfl⟩ := get_user_partition_panic_shape env.mbrParse di.drive c hup
        have hres : kernel_main_after_fb env bi gfb t =
            { trace := t ++ [BootEvent.logInfo, BootEvent.initGdt,
                BootEvent.logInfo, BootEvent.initIdt, BootEvent.logInfo,
                BootEvent.initFrameAllocator,
                BootEvent.initVirtualMemoryManager, BootEvent.initHeap,
                BootEvent.logInfo, BootEvent.initInterrupts,
                BootEvent.logInfo, BootEvent.initAta, BootEvent.logDebug,
                BootEvent.readBootRecord],
              outcome := BootOutcome.panicked (PanicCause.unwrapAta a),
              global_framebuffer := gfb } := by
          unfold kernel_main_after_fb
          simp only [hpo, hada, hup]
          simp [init_memory_events, List.append_assoc]
        rw [hres]
        dsimp only
        refine ⟨rfl, ⟨14, by congr 1⟩, ?_, ?_, ?_⟩
        · intro e2 he
          exact BootOutcome.noConfusion he
        · intro hnot hmem _
          rcases List.mem_append.mp hmem with h | h
          · exact absurd h hnot
          · exact absurd h (by decide)
        · intro hcon
          injection hcon with h1
          exact PanicCause.noConfusion h1
      | err e =>
        obtain rfl := get_user_partition_err_shape env.mbrParse di.drive e hup
        have hres : kernel_main_after_fb env bi gfb t =
            { trace := t ++ [BootEvent.logInfo, BootEvent.initGdt,
                BootEvent.logInfo, BootEvent.initIdt, BootEvent.logInfo,
                BootEvent.initFrameAllocator,
                BootEvent.initVirtualMemoryManager, BootEvent.initHeap,
                BootEvent.logInfo, BootEvent.initInterrupts,
                BootEvent.logInfo, BootEvent.initAta, BootEvent.logDebug,
                BootEvent.readBootRecord],
              outcome := BootOutcome.panicked
                (PanicCause.unwrapErr KernelInitError.invalidDiskMbr),
              global_framebuffer := gfb } := by
          unfold kernel_main_after_fb
          simp only [hpo, hada, hup]
          simp [init_memory_events, List.append_assoc]
        rw [hres]
        dsimp only
        refine ⟨rfl, ⟨14, by congr 1⟩, ?_, ?_, ?_⟩
        · intro e2 he
          exact BootOutcome.noConfusion he
        · intro hnot hmem _
          rcases List.mem_append.mp hmem with h | h
          · exact absurd h hnot
          · exact absurd h (by decide)
        · intro hcon
          injection hcon with h1
          injection h1 with h2
          exact KernelInitError.noConfusion h2
      | ok part =>
        cases hlp : env.loadProgram "raytrace.elf" with
        | none =>
          have hres : kernel_main_after_fb env bi gfb t =
              { trace := t ++ [BootEvent.logInfo, BootEvent.initGdt,
                  BootEvent.logInfo, BootEvent.initIdt, BootEvent.logInfo,
                  BootEvent.initFrameAllocator,
                  BootEvent.initVirtualMemoryManager, BootEvent.initHeap,
                  BootEvent.logInfo, BootEvent.initInterrupts,
                  BootEvent.logInfo, BootEvent.initAta, BootEvent.logDebug,
                  BootEvent.readBootRecord, BootEvent.logDebug,
                  BootEvent.initFs, BootEvent.loadProgram "raytrace.elf"],
                outcome := BootOutcome.panicked PanicCause.unwrapLoad,
                global_framebuffer := gfb } := by
            unfold kernel_main_after_fb
            simp only [hpo, hada, hup, hlp]
            simp [init_memory_events, List.append_assoc]
          rw [hres]
          dsimp only
          refine ⟨rfl, ⟨17, by congr 1⟩, ?_, ?_, ?_⟩
          · intro e2 he
            exact BootOutcome.noConfusion he
          · intro _ _ _
            rfl
          · intro hcon
            injection hcon with h1
            exact PanicCause.noConfusion h1
        | some entry =>
          have hres : kernel_main_after_fb env bi gfb t =
              { trace := t ++ restTrace,
                outcome := BootOutcome.userspace entry,
                global_framebuffer := gfb } := by
            unfold kernel_main_after_fb
            simp only [hpo, hada, hup, hlp]
            simp [restTrace, init_memory_events, List.append_assoc]
          rw [hres]
          dsimp only
          refine ⟨rfl, ⟨18, by congr 1⟩, ?_, ?_, ?_⟩
          · intro e2 he
            injection he with h1
            subst h1
            exact ⟨rfl, rfl⟩
          · intro _ _ hnone
            exact Option.noConfusion hnone
          · intro hcon
            exact BootOutcome.noConfusion hcon


theorem kernel_main_run_spec (env : KernelEnv) (bi : BootInfo) :
    (kernel_main env bi).global_framebuffer = bi.framebuffer ∧
    BootEvent.loggerInit ∈ (kernel_main env bi).trace ∧
    (∃ k, (kernel_main env bi).trace = (fullTrace bi.framebuffer).take k) ∧
    (∀ e, (kernel_main env bi).outcome = BootOutcome.userspace e →
      (kernel_main env bi).trace = fullTrace bi.framebuffer ∧
      env.loadProgram "raytrace.elf" = some e) ∧
    (BootEvent.loadProgram "raytrace.elf" ∈ (kernel_main env bi).trace →
      env.loadProgram "raytrace.elf" = none →
      (kernel_main env bi).outcome =
        BootOutcome.panicked PanicCause.unwrapLoad) ∧
    ((kernel_main env bi).outcome =
        BootOutcome.panicked
          (PanicCause.unwrapErr KernelInitError.framebufferWrongSize) →
      bi.framebuffer ≠ none) := by
  cases hfb : bi.framebuffer with
  | none =>
    cases hlg : env.loggerInitOk with
    | false =>
      have hres : kernel_main env bi =
          { trace := [BootEvent.loggerInit],
            outcome := BootOutcome.panicked PanicCause.unwrapLogger,
            global_framebuffer := none } := by
        unfold kernel_main
        simp only [hfb, hlg]
        simp
      rw [hres]
      dsimp only
      refine ⟨rfl, by decide, ⟨1, by simp only [fullTrace]; decide⟩, ?_, ?_, ?_⟩
      · intro e he
        exact BootOutcome.noConfusion he
      · intro hmem _
        exact absurd hmem (by decide)
      · intro hcon
        injection hcon with h1
        exact PanicCause.noConfusion h1
    | true =>
      have hres : kernel_main env bi =
          kernel_main_after_fb env bi none noFbHeadTrace := by
        unfold kernel_main
        simp only [hfb, hlg]
        simp [noFbHeadTrace]
      obtain ⟨s1, ⟨k, hk⟩, s3, s4, s5⟩ :=
        kernel_main_after_fb_spec env bi none noFbHeadTrace
      rw [hres]
      refine ⟨s1, ?_, ?_, ?_, ?_, ?_⟩
      · rw [hk]
        exact List.mem_append.mpr (Or.inl (by decide))
      · refine ⟨noFbHeadTrace.length + k, ?_⟩
        rw [hk]
        simp only [fullTrace]
        rw [take_append_left]
      · intro e he
        obtain ⟨htr, hsome⟩ := s3 e he
        refine ⟨?_, hsome⟩
        rw [htr]
        simp [fullTrace]
      · intro hmem hnone
        exact s4 (by decide) hmem hnone
      · intro hcon
        exact absurd hcon s5
  | some f =>
    cases hlg : env.loggerInitOk with
    | false =>
      have hres : kernel_main env bi =
          { trace := [BootEvent.setGlobalFramebuffer, BootEvent.loggerInit],
            outcome := BootOutcome.panicked PanicCause.unwrapLogger,
            global_framebuffer := some f } := by
        unfold kernel_main
        simp only [hfb, hlg]
        simp
      rw [hres]
      dsimp only
      refine ⟨rfl, by decide, ⟨2, by simp only [fullTrace]; decide⟩, ?_, ?_, ?_⟩
      · intro e he
        exact BootOutcome.noConfusion he
      · intro hmem _
        exact absurd hmem (by decide)
      · intro _
        simp
    | true =>
      cases hc : check_framebuffer_size f with
      | error e =>
        obtain rfl := check_framebuffer_size_error_shape f e hc
        have hres : kernel_main env bi =
            { trace := fbHeadTrace,
              outcome := BootOutcome.panicked
                (PanicCause.unwrapErr KernelInitError.framebufferWrongSize),
              global_framebuffer := some f } := by
          unfold kernel_main
          simp only [hfb, hlg, hc]
          simp [fbHeadTrace]
        rw [hres]
        dsimp only
        refine ⟨rfl, by decide, ⟨7, by simp only [fullTrace]; decide⟩,
          ?_, ?_, ?_⟩
        · intro e2 he
          exact BootOutcome.noConfusion he
        · intro hmem _
          exact absurd hmem (by decide)
        · intro _
          simp
      | ok v =>
        cases v
        have hres : kernel_main env bi =
            kernel_main_after_fb env bi (some f) fbHeadTrace := by
          unfold kernel_main
          simp only [hfb, hlg, hc]
          simp [fbHeadTrace]
        obtain ⟨s1, ⟨k, hk⟩, s3, s4, s5⟩ :=
          kernel_main_after_fb_spec env bi (some f) fbHeadTrace
        rw [hres]
        refine ⟨s1, ?_, ?_, ?_, ?_, ?_⟩
        · rw [hk]
          exact List.mem_append.mpr (Or.inl (by decide))
        · refine ⟨fbHeadTrace.length + k, ?_⟩
          rw [hk]
          simp only [fullTrace]
          rw [take_append_left]
        · intro e he
          obtain ⟨htr, hsome⟩ := s3 e he
          refine ⟨?_, hsome⟩
          rw [htr]
          simp [fullTrace]
        · intro hmem hnone
          exact s4 (by decide) hmem hnone
        · intro _
          simp

/-- Counterexample to C4 as stated: on a fully successful boot the segment
descriptor table is loaded (`initGdt`) strictly before the physical frame
allocator is initialized, so the claimed order (frame allocator, then
virtual memory manager, then heap, then descriptor tables, with no step
before its predecessors) does not hold on the code. -/
theorem C4_counterexample :
    (kernel_main goodEnv goodBI).outcome = BootOutcome.userspace 77 ∧
    BootEvent.initGdt ∈ (kernel_main goodEnv goodBI).trace ∧
    BootEvent.initFrameAllocator ∈ (kernel_main goodEnv goodBI).trace ∧
    evIdx (kernel_main goodEnv goodBI).trace BootEvent.initGdt <
      evIdx (kernel_main goodEnv goodBI).trace BootEvent.initFrameAllocator := by
  decide

/-- C4 (amended): the boot sequence performs its initialization steps in
the strict order: descriptor tables (segment table, then vector table),
then physical frame allocator, then virtual memory manager, then heap,
then enabling interrupts, then block-device access, boot-record read,
filesystem setup, ELF loading and the userspace transition. -/
theorem C4_boot_order_amended (env : KernelEnv) (bi : BootInfo)
    (entry : Nat)
    (h : (kernel_main env bi).outcome = BootOutcome.userspace entry) :
    ((kernel_main env bi).trace).filter isInitStep =
      [BootEvent.initGdt, BootEvent.initIdt, BootEvent.initFrameAllocator,
       BootEvent.initVirtualMemoryManager, BootEvent.initHeap,
       BootEvent.initInterrupts, BootEvent.initAta,
       BootEvent.readBootRecord, BootEvent.initFs,
       BootEvent.loadProgram "raytrace.elf", BootEvent.enterUserspace] := by
  obtain ⟨-, -, -, s4, -, -⟩ := kernel_main_run_spec env bi
  obtain ⟨htr, -⟩ := s4 entry h
  rw [htr]
  cases hfb : bi.framebuffer <;> simp only [fullTrace] <;> decide

/-- Witness for C4 (amended): the successful fixture boot shows exactly
that step order. -/
theorem C4_boot_order_amended_witness :
    ((kernel_main goodEnv goodBI).trace).filter isInitStep =
      [BootEvent.initGdt, BootEvent.initIdt, BootEvent.initFrameAllocator,
       BootEvent.initVirtualMemoryManager, BootEvent.initHeap,
       BootEvent.initInterrupts, BootEvent.initAta,
       BootEvent.readBootRecord, BootEvent.initFs,
       BootEvent.loadProgram "raytrace.elf", BootEvent.enterUserspace] :=
  C4_boot_order_amended goodEnv goodBI 77 (by decide)

/-- C5: in every run of `kernel_main`, the segment descriptor table is
loaded strictly before the interrupt vector table, and interrupts are
enabled only after the virtual memory manager and the heap have been
initialized. -/
theorem C5_gdt_before_idt_interrupts_after_memory (env : KernelEnv)
    (bi : BootInfo) :
    (BootEvent.initIdt ∈ (kernel_main env bi).trace →
      BootEvent.initGdt ∈ (kernel_main env bi).trace ∧
      evIdx (kernel_main env bi).trace BootEvent.initGdt <
        evIdx (kernel_main env bi).trace BootEvent.initIdt) ∧
    (BootEvent.initInterrupts ∈ (kernel_main env bi).trace →
      BootEvent.initVirtualMemoryManager ∈ (kernel_main env bi).trace ∧
      BootEvent.initHeap ∈ (kernel_main env bi).trace ∧
      evIdx (kernel_main env bi).trace BootEvent.initVirtualMemoryManager <
        evIdx (kernel_main env bi).trace BootEvent.initInterrupts ∧
      evIdx (kernel_main env bi).trace BootEvent.initHeap <
        evIdx (kernel_main env bi).trace BootEvent.initInterrupts) := by
  obtain ⟨-, -, ⟨k, hk⟩, -, -, -⟩ := kernel_main_run_spec env bi
  rw [hk]
  cases hfb : bi.framebuffer with
  | none =>
    simp only [fullTrace]
    exact take_prop_of_bounded _ (fun t =>
      (BootEvent.initIdt ∈ t → BootEvent.initGdt ∈ t ∧
        evIdx t BootEvent.initGdt < evIdx t BootEvent.initIdt) ∧
      (BootEvent.initInterrupts ∈ t →
        BootEvent.initVirtualMemoryManager ∈ t ∧
        BootEvent.initHeap ∈ t ∧
        evIdx t BootEvent.initVirtualMemoryManager <
          evIdx t BootEvent.initInterrupts ∧
        evIdx t BootEvent.initHeap < evIdx t BootEvent.initInterrupts))
      (by decide) k
  | some f =>
    simp only [fullTrace]
    exact take_prop_of_bounded _ (fun t =>
      (BootEvent.initIdt ∈ t → BootEvent.initGdt ∈ t ∧
        evIdx t BootEvent.initGdt < evIdx t BootEvent.initIdt) ∧
      (BootEvent.initInterrupts ∈ t →
        BootEvent.initVirtualMemoryManager ∈ t ∧
        BootEvent.initHeap ∈ t ∧
        evIdx t BootEvent.initVirtualMemoryManager <
          evIdx t BootEvent.initInterrupts ∧
        evIdx t BootEvent.initHeap < evIdx t BootEvent.initInterrupts))
      (by decide) k

/-- Witness for C5: the successful fixture boot loads the segment table
before the vector table and enables interrupts after the heap. -/
theorem C5_gdt_before_idt_interrupts_after_memory_witness :
    BootEvent.initGdt ∈ (kernel_main goodEnv goodBI).trace ∧
    evIdx (kernel_main goodEnv goodBI).trace BootEvent.initGdt <
      evIdx (kernel_main goodEnv goodBI).trace BootEvent.initIdt ∧
    evIdx (kernel_main goodEnv goodBI).trace BootEvent.initHeap <
      evIdx (kernel_main goodEnv goodBI).trace BootEvent.initInterrupts := by
  obtain ⟨h1, h2⟩ :=
    C5_gdt_before_idt_interrupts_after_memory goodEnv goodBI
  obtain ⟨ha, hb⟩ := h1 (by decide)
  obtain ⟨-, -, -, hd⟩ := h2 (by decide)
  exact ⟨ha, hb, hd⟩

/-- C6: when the physical-memory-offset mapping is absent (and boot got
past the logger and framebuffer check), `kernel_main` fails with the
`PhysicalMemoryNotMapped` condition before any descriptor-table, memory
or device initialization step, and never reaches the userspace
transition. -/
theorem C6_missing_phys_offset_fatal (env : KernelEnv) (bi : BootInfo)
    (hlog : env.loggerInitOk = true)
    (hfb : ∀ fb, bi.framebuffer = some fb →
      check_framebuffer_size fb = Except.ok ())
    (hpo : bi.physical_memory_offset = none) :
    (kernel_main env bi).outcome = BootOutcome.panicked
      (PanicCause.unwrapErr KernelInitError.physicalMemoryNotMapped) ∧
    (∀ e ∈ initStepEvents, e ∉ (kernel_main env bi).trace) ∧
    BootEvent.enterUserspace ∉ (kernel_main env bi).trace := by
  cases hfbc : bi.framebuffer with
  | none =>
    have hres : kernel_main env bi =
        kernel_main_after_fb env bi none noFbHeadTrace := by
      unfold kernel_main
      simp only [hfbc, hlog]
      simp [noFbHeadTrace]
    have hres2 : kernel_main_after_fb env bi none noFbHeadTrace =
        { trace := noFbHeadTrace,
          outcome := BootOutcome.panicked
            (PanicCause.unwrapErr KernelInitError.physicalMemoryNotMapped),
          global_framebuffer := none } := by
      unfold kernel_main_after_fb
      rw [hpo]
    rw [hres, hres2]
    dsimp only
    exact ⟨rfl, by decide, by decide⟩
  | some f =>
    have hcfb := hfb f hfbc
    have hres : kernel_main env bi =
        kernel_main_after_fb env bi (some f) fbHeadTrace := by
      unfold kernel_main
      simp only [hfbc, hlog, hcfb]
      simp [fbHeadTrace]
    have hres2 : kernel_main_after_fb env bi (some f) fbHeadTrace =
        { trace := fbHeadTrace,
          outcome := BootOutcome.panicked
            (PanicCause.unwrapErr KernelInitError.physicalMemoryNotMapped),
          global_framebuffer := some f } := by
      unfold kernel_main_after_fb
      rw [hpo]
    rw [hres, hres2]
    dsimp only
    exact ⟨rfl, by decide, by decide⟩

/-- Witness for C6: the fixture boot information without a mapped physical
memory offset halts with `PhysicalMemoryNotMapped` and never loads the
segment table. -/
theorem C6_missing_phys_offset_fatal_witness :
    (kernel_main goodEnv noPhysBI).outcome = BootOutcome.panicked
      (PanicCause.unwrapErr KernelInitError.physicalMemoryNotMapped) ∧
    BootEvent.initGdt ∉ (kernel_main goodEnv noPhysBI).trace := by
  obtain ⟨h1, h2, -⟩ := C6_missing_phys_offset_fatal goodEnv noPhysBI rfl
    (by
      intro fb hfb
      injection hfb with h
      subst h
      rfl)
    rfl
  exact ⟨h1, h2 BootEvent.initGdt (by decide)⟩

/-- C9: every successful boot requests exactly one file from the
filesystem, with the fixed name "raytrace.elf", whose load yields the
entry point entered; and when resolving or loading that name fails, the
boot panics (diagnostic then halt) and never reaches userspace. -/
theorem C9_single_fixed_program (env : KernelEnv) (bi : BootInfo) :
    (∀ entry, (kernel_main env bi).outcome = BootOutcome.userspace entry →
      ((kernel_main env bi).trace).filter isLoadEvent =
        [BootEvent.loadProgram "raytrace.elf"] ∧
      env.loadProgram "raytrace.elf" = some entry) ∧
    (env.loadProgram "raytrace.elf" = none →
      (BootEvent.loadProgram "raytrace.elf" ∈ (kernel_main env bi).trace →
        (kernel_main env bi).outcome =
          BootOutcome.panicked PanicCause.unwrapLoad) ∧
      ∀ entry, (kernel_main env bi).outcome ≠
        BootOutcome.userspace entry) := by
  obtain ⟨-, -, -, s4, s5, -⟩ := kernel_main_run_spec env bi
  constructor
  · intro entry h
    obtain ⟨htr, hsome⟩ := s4 entry h
    refine ⟨?_, hsome⟩
    rw [htr]
    cases hfb : bi.framebuffer <;> simp only [fullTrace] <;> decide
  · intro hnone
    refine ⟨fun hmem => s5 hmem hnone, ?_⟩
    intro entry hcon
    obtain ⟨-, hsome⟩ := s4 entry hcon
    rw [hnone] at hsome
    exact Option.noConfusion hsome

/-- Witness for C9: the successful fixture boot requests exactly
"raytrace.elf"; with a failing program load the boot panics. -/
theorem C9_single_fixed_program_witness :
    ((kernel_main goodEnv goodBI).trace).filter isLoadEvent =
      [BootEvent.loadProgram "raytrace.elf"] ∧
    (kernel_main loadFailEnv goodBI).outcome =
      BootOutcome.panicked PanicCause.unwrapLoad := by
  refine ⟨((C9_single_fixed_program goodEnv goodBI).1 77 (by decide)).1, ?_⟩
  exact ((C9_single_fixed_program loadFailEnv goodBI).2 rfl).1 (by decide)

/-- C10: with no framebuffer in the boot information, `kernel_main`
installs no global framebuffer handle, emits neither the install nor the
shape-check event, and continues the boot sequence; the
`FramebufferWrongSize` outcome is reachable only when a framebuffer
descriptor is present. -/
theorem C10_no_framebuffer_skips_check (env : KernelEnv) (bi : BootInfo) :
    (bi.framebuffer = none →
      (kernel_main env bi).global_framebuffer = none ∧
      BootEvent.setGlobalFramebuffer ∉ (kernel_main env bi).trace ∧
      BootEvent.checkFramebuffer ∉ (kernel_main env bi).trace ∧
      BootEvent.loggerInit ∈ (kernel_main env bi).trace ∧
      (kernel_main env bi).outcome ≠ BootOutcome.panicked
        (PanicCause.unwrapErr KernelInitError.framebufferWrongSize)) ∧
    ((kernel_main env bi).outcome = BootOutcome.panicked
        (PanicCause.unwrapErr KernelInitError.framebufferWrongSize) →
      bi.framebuffer ≠ none) := by
  obtain ⟨s1, s2, ⟨k, hk⟩, -, -, s6⟩ := kernel_main_run_spec env bi
  refine ⟨?_, s6⟩
  intro hnone
  refine ⟨by rw [s1, hnone], ?_, ?_, s2, fun hcon => (s6 hcon) hnone⟩
  · rw [hk, hnone]
    simp only [fullTrace]
    exact take_prop_of_bounded _
      (fun t => BootEvent.setGlobalFramebuffer ∉ t) (by decide) k
  · rw [hk, hnone]
    simp only [fullTrace]
    exact take_prop_of_bounded _
      (fun t => BootEvent.checkFramebuffer ∉ t) (by decide) k

/-- Witness for C10: the fixture boot without a framebuffer leaves the
global handle unset, never checks the framebuffer, and still initializes
the logger. -/
theorem C10_no_framebuffer_skips_check_witness :
    (kernel_main goodEnv noFbBI).global_framebuffer = none ∧
    BootEvent.checkFramebuffer ∉ (kernel_main goodEnv noFbBI).trace ∧
    BootEvent.loggerInit ∈ (kernel_main goodEnv noFbBI).trace := by
  obtain ⟨h1, -, h3, h4, -⟩ :=
    (C10_no_framebuffer_skips_check goodEnv noFbBI).1 rfl
  exact ⟨h1, h3, h4⟩

end MariOS
